import Mathlib

/-!
Shallow embedding of the hello-world-operator reconciliation core
(src/rust/operator-binary/src/{crd,controller,affinity,operations/pdb}.rs)
and proofs of the specified properties.
-/

namespace HelloOperator

/-- Kubernetes resource quantity (e.g. "100m", "256Mi"), carried opaquely
as its string form; the merge logic never inspects it. -/
abbrev Quantity := String

/-- stackable time Duration, modelled as a number of seconds. -/
abbrev Duration := Nat

/-- `DEFAULT_HELLO_WORLD_GRACEFUL_SHUTDOWN_TIMEOUT = Duration::from_minutes_unchecked(2)`. -/
def DEFAULT_HELLO_WORLD_GRACEFUL_SHUTDOWN_TIMEOUT : Duration := 120

/-- Atomic merge of stackable `Merge` on an optional leaf: self wins when
present, otherwise the value is filled from the (lower-precedence) other. -/
def mergeOpt (self other : Option α) : Option α :=
  match self with
  | some v => some v
  | none => other

/-- `CpuLimitsFragment` (stackable commons resources): optional cpu min/max. -/
structure CpuLimitsFragment where
  min : Option Quantity
  max : Option Quantity
deriving Repr, DecidableEq

/-- `MemoryLimitsFragment` (runtime limits carry no data for this operator). -/
structure MemoryLimitsFragment where
  limit : Option Quantity
deriving Repr, DecidableEq

/-- `PvcConfigFragment`: capacity, storage class, selectors (selectors kept
opaque as a string form of the LabelSelector). -/
structure PvcConfigFragment where
  capacity : Option Quantity
  storage_class : Option String
  selectors : Option String
deriving Repr, DecidableEq

/-- `ServerStorageConfigFragment` from crd.rs: one `data` PVC config. -/
structure ServerStorageConfigFragment where
  data : PvcConfigFragment
deriving Repr, DecidableEq

/-- `ResourcesFragment<ServerStorageConfig, NoRuntimeLimits>`. -/
structure ResourcesFragment where
  cpu : CpuLimitsFragment
  memory : MemoryLimitsFragment
  storage : ServerStorageConfigFragment
deriving Repr, DecidableEq

/-- Choice of container log configuration: a custom ConfigMap reference or
the automatic configuration (payload kept opaque). -/
inductive ContainerLogConfigChoice where
  | custom (config_map : String)
  | automatic (conf : String)
deriving Repr, DecidableEq

/-- `ContainerLogConfigFragment`: one optional choice. -/
structure ContainerLogConfigFragment where
  choice : Option ContainerLogConfigChoice
deriving Repr, DecidableEq

/-- `Logging<Container>` fragment: the `containers` BTreeMap is keyed by the
two-variant `Container` enum of crd.rs (Hello, Vector), so it is embedded as
one field per key. -/
structure LoggingFragment where
  enable_vector_agent : Option Bool
  hello : ContainerLogConfigFragment
  vector : ContainerLogConfigFragment
deriving Repr, DecidableEq

/-- `WeightedPodAffinityTerm` restricted to the shape produced by
`affinity_between_role_pods`: match labels, topology key and weight. -/
structure WeightedPodAffinityTerm where
  weight : Nat
  match_labels : List (String × String)
  topology_key : String
deriving Repr, DecidableEq

/-- `PodAntiAffinity` with its two term lists. -/
structure PodAntiAffinity where
  preferred_during_scheduling_ignored_during_execution : Option (List WeightedPodAffinityTerm)
  required_during_scheduling_ignored_during_execution : Option (List WeightedPodAffinityTerm)
deriving Repr, DecidableEq

/-- `StackableAffinityFragment`: four optional fields, each an atomic
Kubernetes value under stackable merge (pod affinity and node affinity kept
opaque as strings). -/
structure StackableAffinityFragment where
  pod_affinity : Option String
  pod_anti_affinity : Option PodAntiAffinity
  node_affinity : Option String
  node_selector : Option (List (String × String))
deriving Repr, DecidableEq

/-- `HelloConfigFragment` from crd.rs. -/
structure HelloConfigFragment where
  resources : ResourcesFragment
  logging : LoggingFragment
  affinity : StackableAffinityFragment
  graceful_shutdown_timeout : Option Duration
deriving Repr, DecidableEq

def CpuLimitsFragment.merge (self other : CpuLimitsFragment) : CpuLimitsFragment :=
  { min := mergeOpt self.min other.min
    max := mergeOpt self.max other.max }

def MemoryLimitsFragment.merge (self other : MemoryLimitsFragment) : MemoryLimitsFragment :=
  { limit := mergeOpt self.limit other.limit }

def PvcConfigFragment.merge (self other : PvcConfigFragment) : PvcConfigFragment :=
  { capacity := mergeOpt self.capacity other.capacity
    storage_class := mergeOpt self.storage_class other.storage_class
    selectors := mergeOpt self.selectors other.selectors }

def ServerStorageConfigFragment.merge (self other : ServerStorageConfigFragment) :
    ServerStorageConfigFragment :=
  { data := self.data.merge other.data }

def ResourcesFragment.merge (self other : ResourcesFragment) : ResourcesFragment :=
  { cpu := self.cpu.merge other.cpu
    memory := self.memory.merge other.memory
    storage := self.storage.merge other.storage }

def ContainerLogConfigFragment.merge (self other : ContainerLogConfigFragment) :
    ContainerLogConfigFragment :=
  { choice := mergeOpt self.choice other.choice }

def LoggingFragment.merge (self other : LoggingFragment) : LoggingFragment :=
  { enable_vector_agent := mergeOpt self.enable_vector_agent other.enable_vector_agent
    hello := self.hello.merge other.hello
    vector := self.vector.merge other.vector }

def StackableAffinityFragment.merge (self other : StackableAffinityFragment) :
    StackableAffinityFragment :=
  { pod_affinity := mergeOpt self.pod_affinity other.pod_affinity
    pod_anti_affinity := mergeOpt self.pod_anti_affinity other.pod_anti_affinity
    node_affinity := mergeOpt self.node_affinity other.node_affinity
    node_selector := mergeOpt self.node_selector other.node_selector }

/-- stackable `Merge` on `HelloConfigFragment`: field-wise, self (the
higher-precedence fragment) wins wherever it is set, missing leaves are
filled from `other`. -/
def HelloConfigFragment.merge (self other : HelloConfigFragment) : HelloConfigFragment :=
  { resources := self.resources.merge other.resources
    logging := self.logging.merge other.logging
    affinity := self.affinity.merge other.affinity
    graceful_shutdown_timeout :=
      mergeOpt self.graceful_shutdown_timeout other.graceful_shutdown_timeout }

/-! Validated configuration types (`fragment::validate` output). In the
library types every resource leaf is still optional after validation; the
one mandatory leaf in this configuration is `logging.enable_vector_agent`. -/

structure ContainerLogConfig where
  choice : Option ContainerLogConfigChoice
deriving Repr, DecidableEq

structure Logging where
  enable_vector_agent : Bool
  hello : ContainerLogConfig
  vector : ContainerLogConfig
deriving Repr, DecidableEq

structure StackableAffinity where
  pod_affinity : Option String
  pod_anti_affinity : Option PodAntiAffinity
  node_affinity : Option String
  node_selector : Option (List (String × String))
deriving Repr, DecidableEq

/-- `HelloConfig`, the validated configuration of crd.rs. -/
structure HelloConfig where
  resources : ResourcesFragment
  logging : Logging
  affinity : StackableAffinity
  graceful_shutdown_timeout : Option Duration
deriving Repr, DecidableEq

/-- `fragment::ValidationError`. -/
inductive ValidationError where
  | fieldNotSet (field : String)
deriving Repr, DecidableEq

/-- `fragment::validate` on `HelloConfigFragment`: fails when a mandatory
leaf is unset; here `logging.enableVectorAgent` is the mandatory leaf. -/
def fragment_validate (f : HelloConfigFragment) : Except ValidationError HelloConfig :=
  match f.logging.enable_vector_agent with
  | none => .error (.fieldNotSet "logging.enableVectorAgent")
  | some eva =>
    .ok
      { resources := f.resources
        logging :=
          { enable_vector_agent := eva
            hello := { choice := f.logging.hello.choice }
            vector := { choice := f.logging.vector.choice } }
        affinity :=
          { pod_affinity := f.affinity.pod_affinity
            pod_anti_affinity := f.affinity.pod_anti_affinity
            node_affinity := f.affinity.node_affinity
            node_selector := f.affinity.node_selector }
        graceful_shutdown_timeout := f.graceful_shutdown_timeout }

/-- `HelloRole` from crd.rs: the single `Server` role. -/
inductive HelloRole where
  | server
deriving Repr, DecidableEq

/-- strum serialization of `HelloRole` (`serialize = "server"`). -/
def HelloRole.roleName : HelloRole → String
  | .server => "server"

/-- strum `from_str` for `HelloRole`. -/
def HelloRole.from_str (s : String) : Option HelloRole :=
  if s = "server" then some .server else none

/-- `affinity_between_role_pods` from the stackable affinity commons, shape
as asserted by the affinity.rs unit test: one weighted pod-affinity term
matching the app/instance/component labels on the hostname topology key. -/
def affinity_between_role_pods (app_name cluster_name role : String) (weight : Nat) :
    WeightedPodAffinityTerm :=
  { weight := weight
    match_labels :=
      [("app.kubernetes.io/name", app_name),
       ("app.kubernetes.io/instance", cluster_name),
       ("app.kubernetes.io/component", role)]
    topology_key := "kubernetes.io/hostname" }

/-- `APP_NAME` constant of crd.rs. -/
def APP_NAME : String := "hello-world"

/-- `get_affinity` from affinity.rs. -/
def get_affinity (cluster_name : String) (role : HelloRole) : StackableAffinityFragment :=
  { pod_affinity := none
    pod_anti_affinity :=
      some
        { preferred_during_scheduling_ignored_during_execution :=
            some [affinity_between_role_pods APP_NAME cluster_name role.roleName 70]
          required_during_scheduling_ignored_during_execution := none }
    node_affinity := none
    node_selector := none }

/-- `product_logging::spec::default_logging()`: vector agent disabled, one
automatic log-config entry per `Container` variant. -/
def default_logging : LoggingFragment :=
  { enable_vector_agent := some false
    hello := { choice := some (.automatic "default") }
    vector := { choice := some (.automatic "default") } }

/-- `HelloConfig::default_config` from crd.rs. -/
def HelloConfig.default_config (cluster_name : String) (role : HelloRole) : HelloConfigFragment :=
  { resources :=
      { cpu := { min := some "100m", max := some "400m" }
        memory := { limit := some "256Mi" }
        storage :=
          { data := { capacity := some "256Mi", storage_class := none, selectors := none } } }
    logging := default_logging
    affinity := get_affinity cluster_name role
    graceful_shutdown_timeout := some DEFAULT_HELLO_WORLD_GRACEFUL_SHUTDOWN_TIMEOUT }

/-! Pod template model. The pod override merging (`DeepMerge::merge_from` of
k8s-openapi) is embedded with its strategic-merge semantics: keyed lists
(containers and volumes by name, env by name, volume mounts by mount path,
ports by port, labels and node selectors per key) are merged element-wise
with the override winning per matching element and unmatched override
entries appended; atomic leaves are replaced by the override where it sets
them; optional sub-structures (probes, affinity) are merged recursively. -/

/-- Kubernetes `Probe`, restricted to the fields the builder sets. -/
structure Probe where
  initial_delay_seconds : Option Nat
  period_seconds : Option Nat
  failure_threshold : Option Nat
  tcp_socket_port : Option String
deriving Repr, DecidableEq

/-- A container of the pod template (name, image, command/args, env,
volume mounts, ports, resources and probes). -/
structure ContainerSpec where
  name : String
  image : Option String
  command : List String
  args : List String
  env : List (String × String)
  volume_mounts : List (String × String)
  container_ports : List (String × Nat)
  resources : Option ResourcesFragment
  readiness_probe : Option Probe
  liveness_probe : Option Probe
deriving Repr, DecidableEq

/-- A volume of the pod template: name plus its source. -/
inductive VolumeSource where
  | configMap (name : String)
  | emptyDir (size_limit : Option Quantity)
deriving Repr, DecidableEq

structure VolumeSpec where
  name : String
  source : VolumeSource
deriving Repr, DecidableEq

/-- Kubernetes `PodTemplateSpec`, restricted to the fields this operator
computes; every field is optional so that administrator overrides can be
expressed as sparse templates. -/
structure PodTemplateSpec where
  labels : Option (List (String × String))
  image_pull_secrets : Option (List String)
  containers : Option (List ContainerSpec)
  volumes : Option (List VolumeSpec)
  affinity : Option StackableAffinity
  service_account_name : Option String
  termination_grace_period_seconds : Option Nat
deriving Repr, DecidableEq

/-- The all-unset pod template (the value of a defaulted `pod_overrides`). -/
def PodTemplateSpec.empty : PodTemplateSpec :=
  { labels := none, image_pull_secrets := none, containers := none, volumes := none
    affinity := none, service_account_name := none, termination_grace_period_seconds := none }

/-- `DeepMerge` on an optional sub-structure: both sides set merges
recursively, otherwise the set side is kept. -/
def mergeOptWith (f : α → α → α) (self other : Option α) : Option α :=
  match self, other with
  | none, o => o
  | some s, none => some s
  | some s, some o => some (f s o)

/-- k8s-openapi `merge_strategies::list::map`: elements of `self` are kept
in order, each merged with its key-matching element of `other` when one
exists; elements of `other` with no key match in `self` are appended.
Embedded assuming keys are unique within each list, as the builders
produce. -/
def mergeKeyedList {α κ : Type _} [DecidableEq κ] (key : α → κ) (mergeItem : α → α → α)
    (self other : List α) : List α :=
  (self.map fun s =>
    match other.find? (fun o => decide (key o = key s)) with
    | some o => mergeItem s o
    | none => s)
  ++ other.filter (fun o => !(self.any (fun s => decide (key s = key o))))

/-- `DeepMerge` on a probe: the override wins per set field. -/
def Probe.merge_from (self other : Probe) : Probe :=
  { initial_delay_seconds := mergeOpt other.initial_delay_seconds self.initial_delay_seconds
    period_seconds := mergeOpt other.period_seconds self.period_seconds
    failure_threshold := mergeOpt other.failure_threshold self.failure_threshold
    tcp_socket_port := mergeOpt other.tcp_socket_port self.tcp_socket_port }

/-- `DeepMerge` on a container (strategic): the name is the merge key;
image and probes merge with the override winning per set field; env is
merged by variable name, volume mounts by mount path, ports by port;
command and args are atomic lists (the unset override list, embedded as
the empty list, keeps the computed one); resources merge per leaf with the
override winning. -/
def ContainerSpec.merge_from (self other : ContainerSpec) : ContainerSpec :=
  { name := self.name
    image := mergeOpt other.image self.image
    command := if other.command.isEmpty then self.command else other.command
    args := if other.args.isEmpty then self.args else other.args
    env := mergeKeyedList Prod.fst (fun _ o => o) self.env other.env
    volume_mounts := mergeKeyedList Prod.snd (fun _ o => o) self.volume_mounts
      other.volume_mounts
    container_ports := mergeKeyedList Prod.snd (fun _ o => o) self.container_ports
      other.container_ports
    resources := mergeOptWith (fun s o => ResourcesFragment.merge o s) self.resources
      other.resources
    readiness_probe := mergeOptWith Probe.merge_from self.readiness_probe
      other.readiness_probe
    liveness_probe := mergeOptWith Probe.merge_from self.liveness_probe
      other.liveness_probe }

/-- `DeepMerge` on pod anti-affinity: its two term lists carry no merge key
upstream, so the override list replaces the computed one where set. -/
def PodAntiAffinity.merge_from (self other : PodAntiAffinity) : PodAntiAffinity :=
  { preferred_during_scheduling_ignored_during_execution :=
      mergeOpt other.preferred_during_scheduling_ignored_during_execution
        self.preferred_during_scheduling_ignored_during_execution
    required_during_scheduling_ignored_during_execution :=
      mergeOpt other.required_during_scheduling_ignored_during_execution
        self.required_during_scheduling_ignored_during_execution }

/-- `DeepMerge` on affinity: per sub-field, recursive on the anti-affinity
structure, per key on the node selector map. -/
def StackableAffinity.merge_from (self other : StackableAffinity) : StackableAffinity :=
  { pod_affinity := mergeOpt other.pod_affinity self.pod_affinity
    pod_anti_affinity := mergeOptWith PodAntiAffinity.merge_from self.pod_anti_affinity
      other.pod_anti_affinity
    node_affinity := mergeOpt other.node_affinity self.node_affinity
    node_selector := mergeOptWith (mergeKeyedList Prod.fst (fun _ o => o))
      self.node_selector other.node_selector }

/-- `DeepMerge::merge_from` on the embedded pod template: labels per key,
image pull secrets by name, containers and volumes element-wise by name
(the volume source group of a matching override volume wins), affinity per
sub-field, and the atomic service-account and termination-grace leaves
replaced by the override where set. -/
def PodTemplateSpec.merge_from (self other : PodTemplateSpec) : PodTemplateSpec :=
  { labels := mergeOptWith (mergeKeyedList Prod.fst (fun _ o => o)) self.labels
      other.labels
    image_pull_secrets := mergeOptWith (mergeKeyedList (fun s => s) (fun _ o => o))
      self.image_pull_secrets other.image_pull_secrets
    containers := mergeOptWith (mergeKeyedList ContainerSpec.name ContainerSpec.merge_from)
      self.containers other.containers
    volumes := mergeOptWith
      (mergeKeyedList VolumeSpec.name (fun s o => { name := s.name, source := o.source }))
      self.volumes other.volumes
    affinity := mergeOptWith StackableAffinity.merge_from self.affinity other.affinity
    service_account_name := mergeOpt other.service_account_name self.service_account_name
    termination_grace_period_seconds :=
      mergeOpt other.termination_grace_period_seconds self.termination_grace_period_seconds }

/-! Role and cluster data model (role_utils and crd.rs). -/

/-- `PdbConfig` of the stackable pdb commons. -/
structure PdbConfig where
  enabled : Bool
  max_unavailable : Option Nat
deriving Repr, DecidableEq

/-- `GenericRoleConfig`: role-level operational policy. -/
structure GenericRoleConfig where
  pod_disruption_budget : PdbConfig
deriving Repr, DecidableEq

/-- `CommonConfiguration<HelloConfigFragment>`: the config fragment plus the
raw pod overrides of that level. -/
structure CommonConfiguration where
  config : HelloConfigFragment
  pod_overrides : PodTemplateSpec
deriving Repr, DecidableEq

/-- `RoleGroup<HelloConfigFragment>`: per-group config, replica count and the
deprecated legacy free-form selector (opaque LabelSelector). -/
structure RoleGroup where
  config : CommonConfiguration
  replicas : Option Nat
  selector : Option String
deriving Repr, DecidableEq

/-- `Role<HelloConfigFragment>`: role-wide config, role-level policy, and the
role groups keyed by name (BTreeMap embedded as an association list with
unique keys). -/
structure RoleSpec where
  config : CommonConfiguration
  role_config : GenericRoleConfig
  role_groups : List (String × RoleGroup)
deriving Repr, DecidableEq

/-- `ClusterOperation`: pause reconciliation / stop the cluster. -/
structure ClusterOperation where
  reconciliation_paused : Bool
  stopped : Bool
deriving Repr, DecidableEq

/-- `CurrentlySupportedListenerClasses` from crd.rs. -/
inductive CurrentlySupportedListenerClasses where
  | clusterInternal
  | externalUnstable
  | externalStable
deriving Repr, DecidableEq

/-- `CurrentlySupportedListenerClasses::k8s_service_type`. -/
def CurrentlySupportedListenerClasses.k8s_service_type :
    CurrentlySupportedListenerClasses → String
  | .clusterInternal => "ClusterIP"
  | .externalUnstable => "NodePort"
  | .externalStable => "LoadBalancer"

/-- `HelloClusterConfig` from crd.rs. -/
structure HelloClusterConfig where
  vector_aggregator_config_map_name : Option String
  listener_class : CurrentlySupportedListenerClasses
deriving Repr, DecidableEq

/-- `HelloClusterSpec` from crd.rs (the product image is kept opaque). -/
structure HelloClusterSpec where
  cluster_config : HelloClusterConfig
  cluster_operation : ClusterOperation
  image : String
  servers : Option RoleSpec
  recipient : String
  color : String
deriving Repr, DecidableEq

/-- Kubernetes object metadata: name and namespace. -/
structure ObjectMeta where
  name : Option String
  ns : Option String
deriving Repr, DecidableEq

/-- The `HelloCluster` custom resource. -/
structure HelloCluster where
  metadata : ObjectMeta
  spec : HelloClusterSpec
deriving Repr, DecidableEq

/-- `ResourceExt::name_any`: the metadata name, or "" when unset. -/
def HelloCluster.name_any (hello : HelloCluster) : String :=
  hello.metadata.name.getD ""

/-- `RoleGroupRef<HelloCluster>`. -/
structure RoleGroupRef where
  cluster_name : String
  role : String
  role_group : String
deriving Repr, DecidableEq

/-- `RoleGroupRef::object_name`: "{cluster}-{role}-{role_group}". -/
def RoleGroupRef.object_name (ref : RoleGroupRef) : String :=
  ref.cluster_name ++ "-" ++ ref.role ++ "-" ++ ref.role_group

/-- `HelloCluster::server_rolegroup_ref`. -/
def HelloCluster.server_rolegroup_ref (hello : HelloCluster) (group_name : String) :
    RoleGroupRef :=
  { cluster_name := hello.name_any
    role := HelloRole.server.roleName
    role_group := group_name }

/-- `HelloCluster::server_role_service_name`: the metadata name. -/
def HelloCluster.server_role_service_name (hello : HelloCluster) : Option String :=
  hello.metadata.name

/-- crd.rs `Error`. -/
inductive CrdError where
  | fragmentValidationFailure (source : ValidationError)
  | unknownHelloRole (role : String)
  | cannotRetrieveHelloRole (role : String)
  | cannotRetrieveHelloRoleGroup (role_group : String)
deriving Repr, DecidableEq

/-- `HelloCluster::role`: the servers role, or an error when undefined. -/
def HelloCluster.role (hello : HelloCluster) (role_variant : HelloRole) :
    Except CrdError RoleSpec :=
  match role_variant with
  | .server =>
    match hello.spec.servers with
    | some r => .ok r
    | none => .error (.cannotRetrieveHelloRole HelloRole.server.roleName)

/-- `HelloCluster::role_group`: parse the role name, fetch the role, then
look the group up by name. -/
def HelloCluster.role_group (hello : HelloCluster) (rolegroup_ref : RoleGroupRef) :
    Except CrdError RoleGroup :=
  match HelloRole.from_str rolegroup_ref.role with
  | none => .error (.unknownHelloRole rolegroup_ref.role)
  | some role_variant =>
    match hello.role role_variant with
    | .error e => .error e
    | .ok role =>
      match role.role_groups.lookup rolegroup_ref.role_group with
      | some rg => .ok rg
      | none => .error (.cannotRetrieveHelloRoleGroup rolegroup_ref.role_group)

/-- `HelloCluster::merged_config`: start from the built-in defaults, merge
the role fragment over them, merge the role-group fragment over that, then
validate the result. -/
def HelloCluster.merged_config (hello : HelloCluster) (role : HelloRole)
    (rolegroup_ref : RoleGroupRef) : Except CrdError HelloConfig :=
  let conf_defaults := HelloConfig.default_config hello.name_any role
  match hello.role role with
  | .error e => .error e
  | .ok r =>
    match hello.role_group rolegroup_ref with
    | .error e => .error e
    | .ok role_group =>
      let conf_role := r.config.config.merge conf_defaults
      let conf_role_group := role_group.config.config.merge conf_role
      match fragment_validate conf_role_group with
      | .error e => .error (.fragmentValidationFailure e)
      | .ok c => .ok c

/-- `PodRef` from crd.rs. -/
structure PodRef where
  ns : String
  role_group_service_name : String
  pod_name : String
deriving Repr, DecidableEq

/-- Lexicographic order on character lists (BTreeMap string key order). -/
def charListLe : List Char → List Char → Bool
  | [], _ => true
  | _ :: _, [] => false
  | c :: cs, d :: ds =>
    if c.val < d.val then true
    else if d.val < c.val then false
    else charListLe cs ds

/-- Lexicographic order on strings. -/
def keyLe (a b : String) : Bool := charListLe a.data b.data

/-- Insertion step of the key-ordered collect (`BTreeMap` ordering). -/
def insertByKey (p : String × RoleGroup) :
    List (String × RoleGroup) → List (String × RoleGroup)
  | [] => [p]
  | q :: rest => if keyLe p.1 q.1 then p :: q :: rest else q :: insertByKey p rest

/-- Order role groups by name, as the `collect::<BTreeMap<_, _>>()` of
`HelloCluster::pods` does. -/
def sortByKey (l : List (String × RoleGroup)) : List (String × RoleGroup) :=
  l.foldr insertByKey []

/-- `HelloCluster::pods`: predict the pods of the cluster. Role groups are
ordered by name (the BTreeMap collect), and each group with replicas `n`
yields pods `{cluster}-{role}-{group}-{i}` for `i < n`. -/
def HelloCluster.pods (hello : HelloCluster) : Except String (List PodRef) :=
  match hello.metadata.ns with
  | none => .error "NoNamespace"
  | some ns =>
    let groups := sortByKey (hello.spec.servers.elim [] RoleSpec.role_groups)
    .ok <| groups.flatMap fun g =>
      let rolegroup_ref := hello.server_rolegroup_ref g.1
      (List.range (g.2.replicas.getD 0)).map fun i =>
        { ns := ns
          role_group_service_name := rolegroup_ref.object_name
          pod_name := rolegroup_ref.object_name ++ "-" ++ toString i }

/-! Controller embedding (controller.rs): constants, builders, and the
reconcile pass modelled as an event trace. -/

def STACKABLE_CONFIG_DIR : String := "/stackable/config"
def STACKABLE_CONFIG_DIR_NAME : String := "config"
def STACKABLE_LOG_DIR : String := "/stackable/log"
def STACKABLE_LOG_DIR_NAME : String := "log"
def STACKABLE_LOG_CONFIG_MOUNT_DIR : String := "/stackable/mount/log-config"
def STACKABLE_LOG_CONFIG_MOUNT_DIR_NAME : String := "log-config-mount"
def JVM_SECURITY_PROPERTIES : String := "security.properties"
def HTTP_PORT_NAME : String := "http"
def HTTP_PORT : Nat := 8080

/-- `ResolvedProductImage` (image selection commons), kept to the fields the
controller reads. -/
structure ResolvedProductImage where
  image : String
  app_version_label : String
  product_version : String
  pull_secrets : List String
deriving Repr, DecidableEq

/-- The validated per-role-group product configuration
(`HashMap<PropertyNameKind, BTreeMap<String, String>>`), keyed by the four
property-name kinds requested in `reconcile_hello`. -/
structure RoleGroupValidatedConfig where
  env : List (String × String)
  cli : List (String × String)
  application_properties : List (String × String)
  jvm_security_properties : List (String × String)
deriving Repr, DecidableEq

def RoleGroupValidatedConfig.empty : RoleGroupValidatedConfig :=
  { env := [], cli := [], application_properties := [], jvm_security_properties := [] }

/-- controller.rs `Error` (the variants reachable in this embedding). -/
inductive ControllerError where
  | internalOperatorFailure (source : CrdError)
  | noServerRole
  | globalServiceNameNotFound
  | applyServiceAccount
  | applyRoleBinding
  | applyRoleService
  | applyRoleGroupService (rolegroup : RoleGroupRef)
  | applyRoleGroupConfig (rolegroup : RoleGroupRef)
  | applyRoleGroupStatefulSet (rolegroup : RoleGroupRef)
  | failedToResolveResourceConfig (source : CrdError)
  | failedToCreatePdb
  | deleteOrphanedResources
deriving Repr, DecidableEq

/-- `kube::runtime::controller::Action`: wait for the next change event, or
requeue after a number of seconds. -/
inductive Action where
  | awaitChange
  | requeue (secs : Nat)
deriving Repr, DecidableEq

/-- `error_policy` from controller.rs: every error requeues after a fixed
five seconds, independent of the object and the error. -/
def error_policy (_obj : HelloCluster) (_error : ControllerError) : Action :=
  Action.requeue 5

/-- Stackable recommended labels (kvp commons) at the granularity the claims
need: app name, instance, component and role-group. -/
def recommended_labels (hello : HelloCluster) (role role_group : String) :
    List (String × String) :=
  [("app.kubernetes.io/name", APP_NAME),
   ("app.kubernetes.io/instance", hello.name_any),
   ("app.kubernetes.io/component", role),
   ("app.kubernetes.io/role-group", role_group)]

/-- `Labels::role_selector`. -/
def role_selector (hello : HelloCluster) (role : String) : List (String × String) :=
  [("app.kubernetes.io/name", APP_NAME),
   ("app.kubernetes.io/instance", hello.name_any),
   ("app.kubernetes.io/component", role)]

/-- `Labels::role_group_selector`. -/
def role_group_selector (hello : HelloCluster) (role role_group : String) :
    List (String × String) :=
  role_selector hello role ++ [("app.kubernetes.io/role-group", role_group)]

/-- `service_ports()` from controller.rs: the single http port. -/
def service_ports : List (String × Nat) := [(HTTP_PORT_NAME, HTTP_PORT)]

/-- A Kubernetes `Service`, restricted to the fields the builders set. -/
structure ServiceResource where
  name : String
  service_type : Option String
  cluster_ip : Option String
  ports : List (String × Nat)
  selector : List (String × String)
  publish_not_ready_addresses : Option Bool
deriving Repr, DecidableEq

/-- `build_server_role_service`: the cluster-level Service, typed from the
cluster listener class. -/
def build_server_role_service (hello : HelloCluster)
    (_resolved_product_image : ResolvedProductImage) :
    Except ControllerError ServiceResource :=
  let role_name := HelloRole.server.roleName
  match hello.server_role_service_name with
  | none => .error .globalServiceNameNotFound
  | some role_svc_name =>
    .ok
      { name := role_svc_name
        service_type := some hello.spec.cluster_config.listener_class.k8s_service_type
        cluster_ip := none
        ports := service_ports
        selector := role_selector hello role_name
        publish_not_ready_addresses := none }

/-- `build_rolegroup_service`: the headless per-role-group Service. -/
def build_rolegroup_service (hello : HelloCluster)
    (_resolved_product_image : ResolvedProductImage) (rolegroup : RoleGroupRef) :
    ServiceResource :=
  { name := rolegroup.object_name
    service_type := some "ClusterIP"
    cluster_ip := some "None"
    ports := service_ports
    selector := role_group_selector hello rolegroup.role rolegroup.role_group
    publish_not_ready_addresses := some true }

/-- Opaque model of `COMMON_BASH_TRAP_FUNCTIONS` (external utils text). -/
def COMMON_BASH_TRAP_FUNCTIONS : String := "common-bash-trap-functions"

/-- Opaque model of `remove_vector_shutdown_file_command`. -/
def remove_vector_shutdown_file_command (dir : String) : String :=
  "remove-vector-shutdown-file " ++ dir

/-- Opaque model of `create_vector_shutdown_file_command`. -/
def create_vector_shutdown_file_command (dir : String) : String :=
  "create-vector-shutdown-file " ++ dir

/-- The command script of the primary container, line by line as assembled
in `build_server_rolegroup_statefulset`. -/
def server_command_lines : List String :=
  [COMMON_BASH_TRAP_FUNCTIONS,
   remove_vector_shutdown_file_command STACKABLE_LOG_DIR,
   "prepare_signal_handlers",
   "java -Djava.security.properties=" ++ STACKABLE_CONFIG_DIR ++ "/" ++ JVM_SECURITY_PROPERTIES
     ++ " -jar hello-world.jar &",
   "wait_for_termination $!",
   create_vector_shutdown_file_command STACKABLE_LOG_DIR]

/-- The primary (`hello-world`) container as assembled by
`build_server_rolegroup_statefulset`: env overrides with empty property
names skipped, config/log/log-config mounts, the http port, resources from
the merged config, and the fixed readiness and liveness probes. -/
def build_hello_container (resolved_product_image : ResolvedProductImage)
    (rolegroup_config : RoleGroupValidatedConfig) (merged_config : HelloConfig) :
    ContainerSpec :=
  { name := APP_NAME
    image := some resolved_product_image.image
    command := ["/bin/bash", "-x", "-euo", "pipefail", "-c"]
    args := [String.intercalate "\n" server_command_lines]
    env := rolegroup_config.env.filter (fun kv => kv.1 != "")
    volume_mounts :=
      [(STACKABLE_CONFIG_DIR_NAME, STACKABLE_CONFIG_DIR),
       (STACKABLE_LOG_DIR_NAME, STACKABLE_LOG_DIR),
       (STACKABLE_LOG_CONFIG_MOUNT_DIR_NAME, STACKABLE_LOG_CONFIG_MOUNT_DIR)]
    container_ports := [(HTTP_PORT_NAME, HTTP_PORT)]
    resources := some merged_config.resources
    readiness_probe :=
      some
        { initial_delay_seconds := some 10
          period_seconds := some 10
          failure_threshold := some 5
          tcp_socket_port := some HTTP_PORT_NAME }
    liveness_probe :=
      some
        { initial_delay_seconds := some 30
          period_seconds := some 10
          failure_threshold := none
          tcp_socket_port := some HTTP_PORT_NAME } }

/-- The vector log-shipping sidecar (framework-built), kept to its fixed
resource requests. -/
def vector_container (resolved_product_image : ResolvedProductImage) : ContainerSpec :=
  { name := "vector"
    image := some resolved_product_image.image
    command := []
    args := []
    env := []
    volume_mounts :=
      [(STACKABLE_CONFIG_DIR_NAME, STACKABLE_CONFIG_DIR),
       (STACKABLE_LOG_DIR_NAME, STACKABLE_LOG_DIR)]
    container_ports := []
    resources :=
      some
        { cpu := { min := some "250m", max := some "500m" }
          memory := { limit := some "128Mi" }
          storage := { data := { capacity := none, storage_class := none, selectors := none } } }
    readiness_probe := none
    liveness_probe := none }

/-- Opaque model of `calculate_log_volume_size_limit(&[MAX_LOG_FILES_SIZE])`. -/
def log_volume_size_limit : Quantity := "log-volume-size-limit"

/-- Modelled from the spec: `add_graceful_shutdown_config` lives in
operations/graceful_shutdown.rs, which is not under src/; per the spec the
workload is given a graceful-shutdown sequence that waits up to the resolved
shutdown-timeout duration, embedded here as the pod termination grace
period taken from the merged config. -/
def add_graceful_shutdown_config (merged_config : HelloConfig) : Option Nat :=
  merged_config.graceful_shutdown_timeout

/-- The log-config mount volume: the custom ConfigMap when the Hello
container has a custom log config, else the role-group ConfigMap. -/
def log_config_volume (merged_config : HelloConfig) (object_name : String) : VolumeSpec :=
  match merged_config.logging.hello.choice with
  | some (.custom config_map) =>
    { name := STACKABLE_LOG_CONFIG_MOUNT_DIR_NAME, source := .configMap config_map }
  | _ =>
    { name := STACKABLE_LOG_CONFIG_MOUNT_DIR_NAME, source := .configMap object_name }

/-- The pod template computed by the builder chain of
`build_server_rolegroup_statefulset`, before the administrator pod
overrides are merged in. -/
def build_pod_template (hello : HelloCluster)
    (resolved_product_image : ResolvedProductImage) (role_group_ref : RoleGroupRef)
    (rolegroup_config : RoleGroupValidatedConfig) (merged_config : HelloConfig)
    (sa_name : String) : PodTemplateSpec :=
  { labels :=
      some (recommended_labels hello role_group_ref.role role_group_ref.role_group)
    image_pull_secrets := some resolved_product_image.pull_secrets
    containers :=
      some ([build_hello_container resolved_product_image rolegroup_config merged_config]
        ++ (if merged_config.logging.enable_vector_agent then
              [vector_container resolved_product_image]
            else []))
    volumes :=
      some
        [{ name := STACKABLE_CONFIG_DIR_NAME, source := .configMap role_group_ref.object_name },
         { name := STACKABLE_LOG_DIR_NAME, source := .emptyDir (some log_volume_size_limit) },
         log_config_volume merged_config role_group_ref.object_name]
    affinity := some merged_config.affinity
    service_account_name := some sa_name
    termination_grace_period_seconds := add_graceful_shutdown_config merged_config }

/-- A Kubernetes `StatefulSet`, restricted to the fields the builder sets. -/
structure StatefulSetResource where
  name : String
  pod_management_policy : Option String
  replicas : Option Nat
  match_labels : List (String × String)
  service_name : String
  template : PodTemplateSpec
  volume_claim_templates : List (String × Option Quantity)
deriving Repr, DecidableEq

/-- `build_server_rolegroup_statefulset`: fetch role and role group, build
the pod template, merge the role-level then the role-group-level pod
overrides over it, and wrap it in the StatefulSet. -/
def build_server_rolegroup_statefulset (hello : HelloCluster)
    (resolved_product_image : ResolvedProductImage) (hello_role : HelloRole)
    (role_group_ref : RoleGroupRef) (rolegroup_config : RoleGroupValidatedConfig)
    (merged_config : HelloConfig) (sa_name : String) :
    Except ControllerError StatefulSetResource :=
  match hello.role hello_role with
  | .error e => .error (.internalOperatorFailure e)
  | .ok role =>
    match hello.role_group role_group_ref with
    | .error e => .error (.internalOperatorFailure e)
    | .ok role_group =>
      let computed :=
        build_pod_template hello resolved_product_image role_group_ref rolegroup_config
          merged_config sa_name
      let pod_template :=
        (computed.merge_from role.config.pod_overrides).merge_from
          role_group.config.pod_overrides
      .ok
        { name := role_group_ref.object_name
          pod_management_policy := some "Parallel"
          replicas := role_group.replicas
          match_labels :=
            role_group_selector hello role_group_ref.role role_group_ref.role_group
          service_name := role_group_ref.object_name
          template := pod_template
          volume_claim_templates := [("data", merged_config.resources.storage.data.capacity)] }

/-! Pod disruption budgets (operations/pdb.rs). -/

/-- Identity of a resource applied through the cluster-resources tracker. -/
inductive ResourceKind where
  | serviceAccount
  | roleBinding
  | service
  | configMap
  | statefulSet
  | podDisruptionBudget
deriving Repr, DecidableEq

structure ResourceId where
  kind : ResourceKind
  name : String
deriving Repr, DecidableEq

/-- The store collaborator: decides whether applying a given resource fails
(true = the apply returns an error). -/
abbrev Oracle := ResourceId → Bool

/-- `max_unavailable_servers` from operations/pdb.rs. -/
def max_unavailable_servers : Nat := 1

/-- The built PodDisruptionBudget (named "{cluster}-{role}" by the
builder). -/
structure PodDisruptionBudgetSpec where
  name : String
  role : String
  max_unavailable : Nat
deriving Repr, DecidableEq

/-- operations/pdb.rs `Error`. -/
inductive PdbError where
  | createPdb (role : String)
  | applyPdb (name : String)
deriving Repr, DecidableEq

/-- `add_pdbs`: a no-op when the budget is disabled; otherwise build the
budget with `max_unavailable` defaulted per role and add it to the cluster
resource set. -/
def add_pdbs (pdb : PdbConfig) (hello : HelloCluster) (role : HelloRole)
    (oracle : Oracle) (cluster_resources : List PodDisruptionBudgetSpec) :
    Except PdbError (List PodDisruptionBudgetSpec) :=
  if !pdb.enabled then
    .ok cluster_resources
  else
    let max_unavailable :=
      pdb.max_unavailable.getD (match role with | .server => max_unavailable_servers)
    let built : PodDisruptionBudgetSpec :=
      { name := hello.name_any ++ "-" ++ role.roleName
        role := role.roleName
        max_unavailable := max_unavailable }
    if oracle { kind := .podDisruptionBudget, name := built.name } then
      .error (.applyPdb built.name)
    else
      .ok (cluster_resources ++ [built])

/-! The reconcile pass, modelled as an event trace over an abstract resource
store. Events record when a resource specification is built, when the
cluster-resources tracker is asked to add it, when the store is actually
written, the status patch, and the orphan-pruning step. -/

/-- `ClusterResourceApplyStrategy` of the resource tracker. -/
inductive ClusterResourceApplyStrategy where
  | default
  | reconciliationPaused
  | clusterStopped
deriving Repr, DecidableEq

/-- Modelled from the spec: the derivation of the apply strategy from the
cluster operational mode (`ClusterResourceApplyStrategy::from(&ClusterOperation)`)
lives in the external cluster-resources tracker, not under src/; per the
spec, "reconciliation paused" and "cluster stopped" are the two special
operational modes. -/
def ClusterResourceApplyStrategy.from_cluster_operation (op : ClusterOperation) :
    ClusterResourceApplyStrategy :=
  if op.reconciliation_paused then .reconciliationPaused
  else if op.stopped then .clusterStopped
  else .default

/-- Modelled from the spec: under the reconciliation-paused strategy the
tracker does not write resources to the store ("the driver skips
Applying"); the deciding code is in the external cluster-resources
tracker, not under src/. -/
def ClusterResourceApplyStrategy.run_apply : ClusterResourceApplyStrategy → Bool
  | .reconciliationPaused => false
  | _ => true

/-- Modelled from the spec: under the reconciliation-paused strategy the
tracker does not delete orphaned resources ("the driver skips Pruning");
the deciding code is in the external cluster-resources tracker, not under
src/. -/
def ClusterResourceApplyStrategy.delete_orphans : ClusterResourceApplyStrategy → Bool
  | .reconciliationPaused => false
  | _ => true

/-- One observable event of a reconcile pass. -/
inductive ReconcileEvent where
  | built (r : ResourceId)
  | addCalled (r : ResourceId) (strategy : ClusterResourceApplyStrategy)
  | storeApplied (r : ResourceId)
  | statusPatched
  | deleteOrphansCalled (strategy : ClusterResourceApplyStrategy)
  | orphansDeleted
deriving Repr, DecidableEq

/-- `ClusterResources::add`: record the add; under a strategy that applies,
write to the store and report the store outcome, otherwise skip the write
and succeed. -/
def cr_add (strategy : ClusterResourceApplyStrategy) (oracle : Oracle) (r : ResourceId) :
    List ReconcileEvent × Bool :=
  if strategy.run_apply then
    ([.addCalled r strategy, .storeApplied r], !(oracle r))
  else
    ([.addCalled r strategy], true)

/-- One iteration of the role-group loop of `reconcile_hello`: resolve the
merged config, build the role-group service, ConfigMap and StatefulSet, then
add all three; the first failure short-circuits every later group. -/
def reconcile_group (hello : HelloCluster) (resolved_product_image : ResolvedProductImage)
    (strategy : ClusterResourceApplyStrategy) (oracle : Oracle) (sa_name : String)
    (acc : List ReconcileEvent × Option ControllerError) (g : String × RoleGroup) :
    List ReconcileEvent × Option ControllerError :=
  match acc with
  | (evs, some e) => (evs, some e)
  | (evs, none) =>
    let role_group_ref := hello.server_rolegroup_ref g.1
    match hello.merged_config .server role_group_ref with
    | .error e => (evs, some (.failedToResolveResourceConfig e))
    | .ok config =>
      let rg_service := build_rolegroup_service hello resolved_product_image role_group_ref
      match build_server_rolegroup_statefulset hello resolved_product_image .server
          role_group_ref .empty config sa_name with
      | .error e => (evs, some e)
      | .ok rg_statefulset =>
        let svc_id : ResourceId := { kind := .service, name := rg_service.name }
        let cm_id : ResourceId := { kind := .configMap, name := role_group_ref.object_name }
        let sts_id : ResourceId := { kind := .statefulSet, name := rg_statefulset.name }
        let evs := evs ++ [.built svc_id, .built cm_id, .built sts_id]
        let a1 := cr_add strategy oracle svc_id
        if !a1.2 then (evs ++ a1.1, some (.applyRoleGroupService role_group_ref))
        else
          let a2 := cr_add strategy oracle cm_id
          if !a2.2 then (evs ++ a1.1 ++ a2.1, some (.applyRoleGroupConfig role_group_ref))
          else
            let a3 := cr_add strategy oracle sts_id
            if !a3.2 then
              (evs ++ a1.1 ++ a2.1 ++ a3.1, some (.applyRoleGroupStatefulSet role_group_ref))
            else (evs ++ a1.1 ++ a2.1 ++ a3.1, none)

/-- The reconcile pass up to and including the status patch (everything
before orphan pruning): RBAC resources, the cluster-level role service, the
per-role-group loop, the pod disruption budgets, then the status patch. -/
def reconcile_body (hello : HelloCluster) (resolved_product_image : ResolvedProductImage)
    (oracle : Oracle) : List ReconcileEvent × Option ControllerError :=
  match hello.spec.servers with
  | none => ([], some .noServerRole)
  | some role =>
    let strategy :=
      ClusterResourceApplyStrategy.from_cluster_operation hello.spec.cluster_operation
    let sa_id : ResourceId :=
      { kind := .serviceAccount, name := hello.name_any ++ "-serviceaccount" }
    let rb_id : ResourceId :=
      { kind := .roleBinding, name := hello.name_any ++ "-rolebinding" }
    let evs : List ReconcileEvent := [.built sa_id, .built rb_id]
    let a1 := cr_add strategy oracle sa_id
    if !a1.2 then (evs ++ a1.1, some .applyServiceAccount)
    else
      let a2 := cr_add strategy oracle rb_id
      if !a2.2 then (evs ++ a1.1 ++ a2.1, some .applyRoleBinding)
      else
        let evs := evs ++ a1.1 ++ a2.1
        match build_server_role_service hello resolved_product_image with
        | .error e => (evs, some e)
        | .ok role_service =>
          let svc_id : ResourceId := { kind := .service, name := role_service.name }
          let evs := evs ++ [.built svc_id]
          let a3 := cr_add strategy oracle svc_id
          if !a3.2 then (evs ++ a3.1, some .applyRoleService)
          else
            let sa_name := sa_id.name
            match role.role_groups.foldl
                (reconcile_group hello resolved_product_image strategy oracle sa_name)
                (evs ++ a3.1, none) with
            | (evs, some e) => (evs, some e)
            | (evs, none) =>
              let pdb := role.role_config.pod_disruption_budget
              if pdb.enabled then
                let pdb_id : ResourceId :=
                  { kind := .podDisruptionBudget
                    name := hello.name_any ++ "-" ++ HelloRole.server.roleName }
                let evs := evs ++ [.built pdb_id]
                let a4 := cr_add strategy oracle pdb_id
                if !a4.2 then (evs ++ a4.1, some .failedToCreatePdb)
                else (evs ++ a4.1 ++ [.statusPatched], none)
              else (evs ++ [.statusPatched], none)

/-- `reconcile_hello`: run the body (applies and status patch), then prune
orphaned resources; on success the next action is awaiting the next change
event. `prune_fails` models a store failure during orphan deletion. -/
def reconcile_hello (hello : HelloCluster) (resolved_product_image : ResolvedProductImage)
    (oracle : Oracle) (prune_fails : Bool) :
    List ReconcileEvent × Except ControllerError Action :=
  match reconcile_body hello resolved_product_image oracle with
  | (evs, some e) => (evs, .error e)
  | (evs, none) =>
    let strategy :=
      ClusterResourceApplyStrategy.from_cluster_operation hello.spec.cluster_operation
    if strategy.delete_orphans then
      if prune_fails then
        (evs ++ [.deleteOrphansCalled strategy], .error .deleteOrphanedResources)
      else
        (evs ++ [.deleteOrphansCalled strategy, .orphansDeleted], .ok .awaitChange)
    else
      (evs ++ [.deleteOrphansCalled strategy], .ok .awaitChange)

/-- Event classifiers used by the temporal properties. -/
def ReconcileEvent.isAdd : ReconcileEvent → Bool
  | .addCalled _ _ => true
  | _ => false

def ReconcileEvent.isPrune : ReconcileEvent → Bool
  | .deleteOrphansCalled _ => true
  | .orphansDeleted => true
  | _ => false

def ReconcileEvent.isBuilt : ReconcileEvent → Bool
  | .built _ => true
  | _ => false

/-- A store write: an actual apply or an actual orphan deletion. -/
def ReconcileEvent.isStoreWrite : ReconcileEvent → Bool
  | .storeApplied _ => true
  | .orphansDeleted => true
  | _ => false

/-- Errors reported from an apply of the pass. -/
def ControllerError.isApplyError : ControllerError → Bool
  | .applyServiceAccount => true
  | .applyRoleBinding => true
  | .applyRoleService => true
  | .applyRoleGroupService _ => true
  | .applyRoleGroupConfig _ => true
  | .applyRoleGroupStatefulSet _ => true
  | .failedToCreatePdb => true
  | _ => false

/-! Helper lemmas and spec-side definitions. -/

theorem mergeOpt_some {α : Type _} (x y : Option α) (v : α) (h : x = some v) :
    mergeOpt x y = some v := by
  subst h; rfl

theorem mergeOpt_some_bottom {α : Type _} (x y : Option α) (v : α) :
    ∃ w, mergeOpt x (mergeOpt y (some v)) = some w := by
  cases x <;> cases y <;> exact ⟨_, rfl⟩

/-- Defined from the spec words of the merge-precedence property: the
fragment in which every leaf equals the role-group value when set, else the
role value, else the default value. Compared with the source-side
`HelloConfigFragment.merge` chain. -/
def specThreeWayMerge (d r g : HelloConfigFragment) : HelloConfigFragment :=
  { resources :=
      { cpu :=
          { min := mergeOpt g.resources.cpu.min (mergeOpt r.resources.cpu.min d.resources.cpu.min)
            max :=
              mergeOpt g.resources.cpu.max (mergeOpt r.resources.cpu.max d.resources.cpu.max) }
        memory :=
          { limit :=
              mergeOpt g.resources.memory.limit
                (mergeOpt r.resources.memory.limit d.resources.memory.limit) }
        storage :=
          { data :=
              { capacity :=
                  mergeOpt g.resources.storage.data.capacity
                    (mergeOpt r.resources.storage.data.capacity
                      d.resources.storage.data.capacity)
                storage_class :=
                  mergeOpt g.resources.storage.data.storage_class
                    (mergeOpt r.resources.storage.data.storage_class
                      d.resources.storage.data.storage_class)
                selectors :=
                  mergeOpt g.resources.storage.data.selectors
                    (mergeOpt r.resources.storage.data.selectors
                      d.resources.storage.data.selectors) } } }
    logging :=
      { enable_vector_agent :=
          mergeOpt g.logging.enable_vector_agent
            (mergeOpt r.logging.enable_vector_agent d.logging.enable_vector_agent)
        hello :=
          { choice :=
              mergeOpt g.logging.hello.choice
                (mergeOpt r.logging.hello.choice d.logging.hello.choice) }
        vector :=
          { choice :=
              mergeOpt g.logging.vector.choice
                (mergeOpt r.logging.vector.choice d.logging.vector.choice) } }
    affinity :=
      { pod_affinity :=
          mergeOpt g.affinity.pod_affinity
            (mergeOpt r.affinity.pod_affinity d.affinity.pod_affinity)
        pod_anti_affinity :=
          mergeOpt g.affinity.pod_anti_affinity
            (mergeOpt r.affinity.pod_anti_affinity d.affinity.pod_anti_affinity)
        node_affinity :=
          mergeOpt g.affinity.node_affinity
            (mergeOpt r.affinity.node_affinity d.affinity.node_affinity)
        node_selector :=
          mergeOpt g.affinity.node_selector
            (mergeOpt r.affinity.node_selector d.affinity.node_selector) }
    graceful_shutdown_timeout :=
      mergeOpt g.graceful_shutdown_timeout
        (mergeOpt r.graceful_shutdown_timeout d.graceful_shutdown_timeout) }

/-- Leaf-wise reading of a validated config against a merged fragment:
every field of the validated config is the corresponding leaf of the
fragment. -/
def leafEquations (c : HelloConfig) (m : HelloConfigFragment) : Prop :=
  c.resources = m.resources ∧
  some c.logging.enable_vector_agent = m.logging.enable_vector_agent ∧
  c.logging.hello.choice = m.logging.hello.choice ∧
  c.logging.vector.choice = m.logging.vector.choice ∧
  c.affinity.pod_affinity = m.affinity.pod_affinity ∧
  c.affinity.pod_anti_affinity = m.affinity.pod_anti_affinity ∧
  c.affinity.node_affinity = m.affinity.node_affinity ∧
  c.affinity.node_selector = m.affinity.node_selector ∧
  c.graceful_shutdown_timeout = m.graceful_shutdown_timeout

/-- The merge invariant at leaf granularity: every leaf already present in
the higher-precedence fragment `a` is still present, unchanged, in `m`. -/
def preservesSetLeaves (a m : HelloConfigFragment) : Prop :=
  (∀ v, a.resources.cpu.min = some v → m.resources.cpu.min = some v) ∧
  (∀ v, a.resources.cpu.max = some v → m.resources.cpu.max = some v) ∧
  (∀ v, a.resources.memory.limit = some v → m.resources.memory.limit = some v) ∧
  (∀ v, a.resources.storage.data.capacity = some v →
      m.resources.storage.data.capacity = some v) ∧
  (∀ v, a.resources.storage.data.storage_class = some v →
      m.resources.storage.data.storage_class = some v) ∧
  (∀ v, a.resources.storage.data.selectors = some v →
      m.resources.storage.data.selectors = some v) ∧
  (∀ v, a.logging.enable_vector_agent = some v → m.logging.enable_vector_agent = some v) ∧
  (∀ v, a.logging.hello.choice = some v → m.logging.hello.choice = some v) ∧
  (∀ v, a.logging.vector.choice = some v → m.logging.vector.choice = some v) ∧
  (∀ v, a.affinity.pod_affinity = some v → m.affinity.pod_affinity = some v) ∧
  (∀ v, a.affinity.pod_anti_affinity = some v → m.affinity.pod_anti_affinity = some v) ∧
  (∀ v, a.affinity.node_affinity = some v → m.affinity.node_affinity = some v) ∧
  (∀ v, a.affinity.node_selector = some v → m.affinity.node_selector = some v) ∧
  (∀ v, a.graceful_shutdown_timeout = some v → m.graceful_shutdown_timeout = some v)

/-- Whether an `Except` carries a success value. -/
def exceptIsOk : Except ε α → Bool
  | .ok _ => true
  | .error _ => false

/-- C1: for every cluster, role and role-group, the configuration returned
by `merged_config` assigns to each field the role-group value when set,
else the role value, else the built-in default; the underlying merge never
discards a value already present in the higher-precedence fragment, and
the chained merge equals the spec-side three-way precedence fragment. -/
theorem merged_config_precedence (hello : HelloCluster) (ref : RoleGroupRef)
    (r : RoleSpec) (rg : RoleGroup)
    (hr : hello.spec.servers = some r) (href : ref.role = "server")
    (hrg : r.role_groups.lookup ref.role_group = some rg) :
    (∀ d2 r2 g2 : HelloConfigFragment,
        g2.merge (r2.merge d2) = specThreeWayMerge d2 r2 g2) ∧
    (∀ a b : HelloConfigFragment, preservesSetLeaves a (a.merge b)) ∧
    (∀ c : HelloConfig, hello.merged_config .server ref = .ok c →
        leafEquations c
          (specThreeWayMerge (HelloConfig.default_config hello.name_any .server)
            r.config.config rg.config.config)) ∧
    exceptIsOk (hello.merged_config .server ref) = true := by
  have hmc : hello.merged_config .server ref =
      match fragment_validate
          (rg.config.config.merge
            (r.config.config.merge (HelloConfig.default_config hello.name_any .server))) with
      | .error e => .error (.fragmentValidationFailure e)
      | .ok c => .ok c := by
    simp only [HelloCluster.merged_config, HelloCluster.role, hr, HelloCluster.role_group,
      HelloRole.from_str, href, if_pos, hrg]
  obtain ⟨w, hw⟩ :=
    mergeOpt_some_bottom rg.config.config.logging.enable_vector_agent
      r.config.config.logging.enable_vector_agent false
  have hval : fragment_validate
      (rg.config.config.merge
        (r.config.config.merge (HelloConfig.default_config hello.name_any .server))) =
      .ok
        { resources :=
            (specThreeWayMerge (HelloConfig.default_config hello.name_any .server)
              r.config.config rg.config.config).resources
          logging :=
            { enable_vector_agent := w
              hello :=
                { choice :=
                    (specThreeWayMerge (HelloConfig.default_config hello.name_any .server)
                      r.config.config rg.config.config).logging.hello.choice }
              vector :=
                { choice :=
                    (specThreeWayMerge (HelloConfig.default_config hello.name_any .server)
                      r.config.config rg.config.config).logging.vector.choice } }
          affinity :=
            { pod_affinity :=
                (specThreeWayMerge (HelloConfig.default_config hello.name_any .server)
                  r.config.config rg.config.config).affinity.pod_affinity
              pod_anti_affinity :=
                (specThreeWayMerge (HelloConfig.default_config hello.name_any .server)
                  r.config.config rg.config.config).affinity.pod_anti_affinity
              node_affinity :=
                (specThreeWayMerge (HelloConfig.default_config hello.name_any .server)
                  r.config.config rg.config.config).affinity.node_affinity
              node_selector :=
                (specThreeWayMerge (HelloConfig.default_config hello.name_any .server)
                  r.config.config rg.config.config).affinity.node_selector }
          graceful_shutdown_timeout :=
            (specThreeWayMerge (HelloConfig.default_config hello.name_any .server)
              r.config.config rg.config.config).graceful_shutdown_timeout } := by
    show fragment_validate _ = _
    unfold fragment_validate
    have heva :
        (rg.config.config.merge
            (r.config.config.merge
              (HelloConfig.default_config hello.name_any .server))).logging.enable_vector_agent
          = some w := hw
    rw [heva]
    rfl
  refine ⟨fun d2 r2 g2 => rfl, ?_, ?_, ?_⟩
  · intro a b
    refine ⟨?_, ?_, ?_, ?_, ?_, ?_, ?_, ?_, ?_, ?_, ?_, ?_, ?_, ?_⟩ <;>
      exact fun v h => mergeOpt_some _ _ _ h
  · intro c hc
    rw [hmc, hval] at hc
    cases hc
    exact ⟨rfl, hw.symm, rfl, rfl, rfl, rfl, rfl, rfl, rfl⟩
  · rw [hmc, hval]
    rfl

/-! Concrete fixtures shared by the witnesses and counterexamples. -/

/-- The all-unset configuration fragment. -/
def emptyFragment : HelloConfigFragment :=
  { resources :=
      { cpu := { min := none, max := none }
        memory := { limit := none }
        storage := { data := { capacity := none, storage_class := none, selectors := none } } }
    logging :=
      { enable_vector_agent := none
        hello := { choice := none }
        vector := { choice := none } }
    affinity :=
      { pod_affinity := none, pod_anti_affinity := none, node_affinity := none
        node_selector := none }
    graceful_shutdown_timeout := none }

def demoRoleGroupDefault : RoleGroup :=
  { config := { config := emptyFragment, pod_overrides := PodTemplateSpec.empty }
    replicas := some 1
    selector := none }

def demoRoleGroupBig : RoleGroup :=
  { config := { config := emptyFragment, pod_overrides := PodTemplateSpec.empty }
    replicas := some 3
    selector := none }

def demoRole : RoleSpec :=
  { config := { config := emptyFragment, pod_overrides := PodTemplateSpec.empty }
    role_config := { pod_disruption_budget := { enabled := true, max_unavailable := none } }
    role_groups := [("default", demoRoleGroupDefault), ("big", demoRoleGroupBig)] }

/-- The "demo" cluster of the spec scenario: role "server", role-groups
"default" (replicas 1) and "big" (replicas 3). -/
def demoCluster : HelloCluster :=
  { metadata := { name := some "demo", ns := some "test-ns" }
    spec :=
      { cluster_config :=
          { vector_aggregator_config_map_name := none, listener_class := .clusterInternal }
        cluster_operation := { reconciliation_paused := false, stopped := false }
        image := "docker.stackable.tech/hello-world"
        servers := some demoRole
        recipient := "World"
        color := "blue" } }

def demoImage : ResolvedProductImage :=
  { image := "docker.stackable.tech/hello-world:0.1.0"
    app_version_label := "0.1.0"
    product_version := "0.1.0"
    pull_secrets := [] }

def demoRefDefault : RoleGroupRef :=
  { cluster_name := "demo", role := "server", role_group := "default" }

/-- Witness for C1: the hypotheses hold for the demo cluster and its
"default" role-group, and resolution succeeds there. -/
theorem merged_config_precedence_witness :
    demoCluster.spec.servers = some demoRole ∧
    demoRefDefault.role = "server" ∧
    demoRole.role_groups.lookup demoRefDefault.role_group = some demoRoleGroupDefault ∧
    exceptIsOk (demoCluster.merged_config .server demoRefDefault) = true :=
  ⟨rfl, rfl, rfl,
    (merged_config_precedence demoCluster demoRefDefault demoRole demoRoleGroupDefault
        rfl rfl rfl).2.2.2⟩

/-! C2: the legacy free-form role-group selector and config resolution. -/

/-- A role group with its deprecated legacy selector removed. -/
def RoleGroup.clearSelector (rg : RoleGroup) : RoleGroup :=
  { rg with selector := none }

/-- The cluster with every role-group legacy selector removed. -/
def HelloCluster.eraseSelectors (hello : HelloCluster) : HelloCluster :=
  { hello with
      spec :=
        { hello.spec with
            servers :=
              hello.spec.servers.map fun r =>
                { r with
                    role_groups :=
                      r.role_groups.map fun g => (g.1, g.2.clearSelector) } } }

theorem lookup_map_value {β γ : Type _} (k : String) (f : β → γ) :
    ∀ l : List (String × β),
      (l.map fun g => (g.1, f g.2)).lookup k = (l.lookup k).map f := by
  intro l
  induction l with
  | nil => rfl
  | cons hd tl ih =>
    by_cases hk : k = hd.1
    · simp [List.lookup, hk]
    · have hbeq : (k == hd.1) = false := beq_false_of_ne hk
      simp [List.lookup, hbeq, ih]

/-- Counterexample fixture: the demo cluster whose "default" role-group
carries a legacy free-form selector. -/
def selCluster : HelloCluster :=
  { demoCluster with
      spec :=
        { demoCluster.spec with
            servers :=
              some
                { demoRole with
                    role_groups :=
                      [("default", { demoRoleGroupDefault with selector := some "legacy" }),
                       ("big", demoRoleGroupBig)] } } }

/-- The number of placement-preference (preferred pod-anti-affinity) terms
of a resolved config, the quantity the claim says grows by one for a
role-group with a legacy selector. -/
def preferredTermCount (c : HelloConfig) : Nat :=
  match c.affinity.pod_anti_affinity with
  | none => 0
  | some p => (p.preferred_during_scheduling_ignored_during_execution.getD []).length

/-- C2 counterexample: on the demo cluster whose "default" role-group
carries a legacy selector, config resolution returns exactly the same
result as on the cluster with the selector removed, and the resolved
config carries exactly one placement-preference term (the built-in
default), not one additional appended term. -/
theorem legacy_selector_not_translated :
    selCluster.merged_config .server demoRefDefault =
      selCluster.eraseSelectors.merged_config .server demoRefDefault ∧
    (selCluster.merged_config .server demoRefDefault).toOption.map preferredTermCount
      = some 1 := by
  constructor
  · rfl
  · rfl

theorem eraseSelectors_role (hello : HelloCluster) :
    hello.eraseSelectors.role .server =
      (hello.role .server).map (fun r =>
        { r with role_groups := r.role_groups.map fun g => (g.1, g.2.clearSelector) }) := by
  unfold HelloCluster.role HelloCluster.eraseSelectors
  cases hs : hello.spec.servers <;> simp [hs, Except.map]

theorem eraseSelectors_role_group (hello : HelloCluster) (ref : RoleGroupRef) :
    hello.eraseSelectors.role_group ref =
      (hello.role_group ref).map RoleGroup.clearSelector := by
  unfold HelloCluster.role_group
  cases hfs : HelloRole.from_str ref.role with
  | none => rfl
  | some rv =>
    cases rv
    dsimp only
    rw [eraseSelectors_role]
    cases hr : hello.role .server with
    | error e => rfl
    | ok r =>
      simp only [Except.map, lookup_map_value]
      cases hg : r.role_groups.lookup ref.role_group with
      | none => rfl
      | some rg => rfl

/-- C2 amended: config resolution ignores the legacy free-form selector
entirely — removing every role-group selector never changes the result of
`merged_config`, so no placement-preference term is appended for it. -/
theorem merged_config_ignores_selector (hello : HelloCluster) (role : HelloRole)
    (ref : RoleGroupRef) :
    hello.eraseSelectors.merged_config role ref = hello.merged_config role ref := by
  cases role
  unfold HelloCluster.merged_config
  rw [eraseSelectors_role, eraseSelectors_role_group]
  cases hr : hello.role .server with
  | error e => rfl
  | ok r =>
    cases hg : hello.role_group ref with
    | error e => rfl
    | ok rg => rfl

/-! C4: predicted pod set of the demo cluster. -/

/-- C4: the demo cluster (role "server", role-groups "default" with one
replica and "big" with three) predicts exactly the ordinal pod identities
demo-server-big-0..2 and demo-server-default-0; the computed order lists
role-groups by name, and the set equals the claimed one. -/
theorem demo_pods_prediction :
    (demoCluster.pods).toOption.map (fun l => l.map PodRef.pod_name) =
      some ["demo-server-big-0", "demo-server-big-1", "demo-server-big-2",
        "demo-server-default-0"] ∧
    List.Perm
      ["demo-server-big-0", "demo-server-big-1", "demo-server-big-2",
        "demo-server-default-0"]
      ["demo-server-default-0", "demo-server-big-0", "demo-server-big-1",
        "demo-server-big-2"] := by
  constructor
  · rfl
  · decide


/-! Trace lemmas for the reconcile pass. -/

theorem foldl_preserves {α β : Type _} (step : β → α → β) (P : β → Prop)
    (h : ∀ b a, P b → P (step b a)) :
    ∀ (l : List α) (b : β), P b → P (l.foldl step b) := by
  intro l
  induction l with
  | nil => intro b hb; exact hb
  | cons hd tl ih => intro b hb; exact ih _ (h b hd hb)

/-- The two possible event lists of one tracker add. -/
theorem cr_add_events (strategy : ClusterResourceApplyStrategy) (oracle : Oracle)
    (r : ResourceId) :
    (cr_add strategy oracle r).1 = [.addCalled r strategy, .storeApplied r] ∨
    (cr_add strategy oracle r).1 = [.addCalled r strategy] := by
  cases hra : strategy.run_apply <;> simp [cr_add, hra]

/-- Events of one tracker add are not prune events. -/
theorem cr_add_no_prune (strategy : ClusterResourceApplyStrategy) (oracle : Oracle)
    (r : ResourceId) : ∀ e ∈ (cr_add strategy oracle r).1, e.isPrune = false := by
  intro e he
  rcases cr_add_events strategy oracle r with h | h <;> rw [h] at he
  · simp at he
    rcases he with he | he <;> subst he <;> rfl
  · simp at he
    subst he
    rfl

/-- Events of one tracker add under a non-applying strategy are not store
writes. -/
theorem cr_add_no_write (strategy : ClusterResourceApplyStrategy) (oracle : Oracle)
    (r : ResourceId) (h : strategy.run_apply = false) :
    ∀ e ∈ (cr_add strategy oracle r).1, e.isStoreWrite = false := by
  intro e he
  simp only [cr_add, h] at he
  simp at he
  subst he
  rfl

theorem forall_mem_append_iff {α : Type _} (p : α → Prop) (l₁ l₂ : List α) :
    (∀ x ∈ l₁ ++ l₂, p x) ↔ (∀ x ∈ l₁, p x) ∧ ∀ x ∈ l₂, p x := by
  constructor
  · intro h
    exact ⟨fun x hx => h x (List.mem_append.2 (Or.inl hx)),
      fun x hx => h x (List.mem_append.2 (Or.inr hx))⟩
  · intro h x hx
    rcases List.mem_append.1 hx with hx | hx
    · exact h.1 x hx
    · exact h.2 x hx

/-- New events of one role-group iteration all satisfy a predicate that
holds on every built event and on every tracker-add event. -/
theorem reconcile_group_pres (hello : HelloCluster) (img : ResolvedProductImage)
    (strategy : ClusterResourceApplyStrategy) (oracle : Oracle) (sa_name : String)
    (Q : ReconcileEvent → Prop)
    (hbuilt : ∀ r, Q (.built r))
    (hcr : ∀ r, ∀ e ∈ (cr_add strategy oracle r).1, Q e) :
    ∀ (acc : List ReconcileEvent × Option ControllerError) (g : String × RoleGroup),
      (∀ e ∈ acc.1, Q e) →
      ∀ e ∈ (reconcile_group hello img strategy oracle sa_name acc g).1, Q e := by
  intro acc g hacc
  obtain ⟨evs, err⟩ := acc
  simp only [reconcile_group]
  cases err with
  | some e2 => exact hacc
  | none =>
    dsimp only
    split
    · exact hacc
    · split
      · exact hacc
      · split <;> [skip; split] <;> [skip; skip; split] <;>
        · repeat rw [forall_mem_append_iff]
          repeat' apply And.intro
          all_goals first
            | exact hacc
            | exact hcr _
            | (intro e he
               simp at he
               rcases he with he | he | he <;> subst he <;> exact hbuilt _)

/-- The per-group fold preserves a predicate on accumulated events. -/
theorem foldl_group_pres (hello : HelloCluster) (img : ResolvedProductImage)
    (strategy : ClusterResourceApplyStrategy) (oracle : Oracle) (sa_name : String)
    (Q : ReconcileEvent → Prop)
    (hbuilt : ∀ r, Q (.built r))
    (hcr : ∀ r, ∀ e ∈ (cr_add strategy oracle r).1, Q e)
    (l : List (String × RoleGroup)) (init : List ReconcileEvent × Option ControllerError)
    (hinit : ∀ e ∈ init.1, Q e) :
    ∀ e ∈ (l.foldl (reconcile_group hello img strategy oracle sa_name) init).1, Q e :=
  foldl_preserves (reconcile_group hello img strategy oracle sa_name)
    (fun st => ∀ e ∈ st.1, Q e)
    (reconcile_group_pres hello img strategy oracle sa_name Q hbuilt hcr) l init hinit

/-- Every event of the reconcile body (everything before pruning) satisfies
any predicate that holds on built events, tracker-add events and the status
patch. -/
theorem reconcile_body_pres (hello : HelloCluster) (img : ResolvedProductImage)
    (oracle : Oracle) (Q : ReconcileEvent → Prop)
    (hbuilt : ∀ r, Q (.built r))
    (hcr : ∀ r, ∀ e ∈ (cr_add
        (ClusterResourceApplyStrategy.from_cluster_operation hello.spec.cluster_operation)
        oracle r).1, Q e)
    (hstatus : Q .statusPatched) :
    ∀ e ∈ (reconcile_body hello img oracle).1, Q e := by
  simp only [reconcile_body]
  cases hs : hello.spec.servers with
  | none => intro e he; simp at he
  | some role =>
    dsimp only
    split
    · repeat rw [forall_mem_append_iff]
      repeat' apply And.intro
      all_goals first
        | exact hcr _
        | (intro e he
           simp at he
           rcases he with he | he <;> subst he <;> exact hbuilt _)
    · split
      · repeat rw [forall_mem_append_iff]
        repeat' apply And.intro
        all_goals first
          | exact hcr _
          | (intro e he
             simp at he
             rcases he with he | he <;> subst he <;> exact hbuilt _)
      · split
        · repeat rw [forall_mem_append_iff]
          repeat' apply And.intro
          all_goals first
            | exact hcr _
            | (intro e he
               simp at he
               rcases he with he | he <;> subst he <;> exact hbuilt _)
        · split
          · repeat rw [forall_mem_append_iff]
            repeat' apply And.intro
            all_goals first
              | exact hcr _
              | (intro e he
                 simp at he
                 first
                   | (rcases he with he | he <;> subst he <;> exact hbuilt _)
                   | (subst he; exact hbuilt _))
          · split
            · rename_i evs2 e2 heq
              have hfst := congrArg Prod.fst heq
              dsimp only at hfst
              intro e he
              rw [← hfst] at he
              revert e he
              apply foldl_group_pres hello img _ oracle _ Q hbuilt hcr
              repeat rw [forall_mem_append_iff]
              repeat' apply And.intro
              all_goals first
                | exact hcr _
                | (intro e he
                   simp at he
                   first
                     | (rcases he with he | he <;> subst he <;> exact hbuilt _)
                     | (subst he; exact hbuilt _))
            · rename_i evs2 heq
              have hfst := congrArg Prod.fst heq
              dsimp only at hfst
              have hfold : ∀ e ∈ evs2, Q e := by
                intro e he
                rw [← hfst] at he
                revert e he
                apply foldl_group_pres hello img _ oracle _ Q hbuilt hcr
                repeat rw [forall_mem_append_iff]
                repeat' apply And.intro
                all_goals first
                  | exact hcr _
                  | (intro e he
                     simp at he
                     first
                       | (rcases he with he | he <;> subst he <;> exact hbuilt _)
                       | (subst he; exact hbuilt _))
              split
              · split <;>
                · repeat rw [forall_mem_append_iff]
                  repeat' apply And.intro
                  all_goals first
                    | exact hfold
                    | exact hcr _
                    | (intro e he
                       simp at he
                       subst he
                       first
                         | exact hbuilt _
                         | exact hstatus)
              · repeat rw [forall_mem_append_iff]
                repeat' apply And.intro
                all_goals first
                  | exact hfold
                  | (intro e he
                     simp at he
                     subst he
                     exact hstatus)

/-- No event of the reconcile body is a prune event. -/
theorem reconcile_body_no_prune (hello : HelloCluster) (img : ResolvedProductImage)
    (oracle : Oracle) : ∀ e ∈ (reconcile_body hello img oracle).1, e.isPrune = false :=
  reconcile_body_pres hello img oracle _ (fun _ => rfl)
    (fun r => cr_add_no_prune _ oracle r) rfl

/-- A successful reconcile body has patched the status. -/
theorem reconcile_body_status (hello : HelloCluster) (img : ResolvedProductImage)
    (oracle : Oracle) (evs : List ReconcileEvent)
    (h : reconcile_body hello img oracle = (evs, none)) :
    ReconcileEvent.statusPatched ∈ evs := by
  simp only [reconcile_body] at h
  cases hs : hello.spec.servers with
  | none =>
    rw [hs] at h
    simp at h
  | some role =>
    rw [hs] at h
    dsimp only at h
    split at h
    · injection h with h1 h2; cases h2
    · split at h
      · injection h with h1 h2; cases h2
      · split at h
        · injection h with h1 h2; cases h2
        · split at h
          · injection h with h1 h2; cases h2
          · split at h
            · injection h with h1 h2; cases h2
            · split at h
              · split at h
                · injection h with h1 h2; cases h2
                · injection h with h1 h2
                  subst h1
                  simp
              · injection h with h1 h2
                subst h1
                simp

/-- The paused operational mode yields the paused apply strategy. -/
theorem strategy_paused (op : ClusterOperation) (h : op.reconciliation_paused = true) :
    ClusterResourceApplyStrategy.from_cluster_operation op = .reconciliationPaused := by
  simp [ClusterResourceApplyStrategy.from_cluster_operation, h]

/-- C3 amended: in paused mode the pass still runs its Building step and
still drives the tracker, but no resource is written to the store and no
orphan is deleted; the status object is still refreshed on success. -/
theorem reconcile_paused_refreshes_status_only (hello : HelloCluster)
    (img : ResolvedProductImage) (oracle : Oracle) (pf : Bool)
    (h : hello.spec.cluster_operation.reconciliation_paused = true) :
    (∀ e ∈ (reconcile_hello hello img oracle pf).1, e.isStoreWrite = false) ∧
    (∀ a, (reconcile_hello hello img oracle pf).2 = .ok a →
      ReconcileEvent.statusPatched ∈ (reconcile_hello hello img oracle pf).1) := by
  have hstrat := strategy_paused hello.spec.cluster_operation h
  have hbody : ∀ e ∈ (reconcile_body hello img oracle).1, e.isStoreWrite = false := by
    apply reconcile_body_pres hello img oracle (fun e => e.isStoreWrite = false)
      (fun _ => rfl) _ rfl
    intro r
    rw [hstrat]
    exact cr_add_no_write _ oracle r rfl
  cases hb : reconcile_body hello img oracle with
  | mk evs err =>
    rw [hb] at hbody
    dsimp only at hbody
    simp only [reconcile_hello, hb]
    cases err with
    | some e =>
      dsimp only
      exact ⟨hbody, fun a ha => by cases ha⟩
    | none =>
      dsimp only
      rw [hstrat]
      dsimp only [ClusterResourceApplyStrategy.delete_orphans]
      constructor
      · intro e he
        rcases List.mem_append.1 he with he | he
        · exact hbody e he
        · simp at he
          subst he
          rfl
      · intro a ha
        exact List.mem_append.2
          (Or.inl (reconcile_body_status hello img oracle evs hb))

def pausedDemoCluster : HelloCluster :=
  { demoCluster with
      spec :=
        { demoCluster.spec with
            cluster_operation := { reconciliation_paused := true, stopped := false } } }

def oracleOk : Oracle := fun _ => false

/-- C3 counterexample: a paused reconcile pass does not skip the Building
step — on the paused demo cluster the trace still contains built resource
specifications and tracker adds, refuting "skips Building, Applying and
Pruning entirely". -/
theorem paused_pass_still_builds :
    pausedDemoCluster.spec.cluster_operation.reconciliation_paused = true ∧
    (reconcile_hello pausedDemoCluster demoImage oracleOk false).1.any
      ReconcileEvent.isBuilt = true ∧
    (reconcile_hello pausedDemoCluster demoImage oracleOk false).1.any
      ReconcileEvent.isAdd = true :=
  ⟨rfl, rfl, rfl⟩

/-- Witness for C3 (amended): the paused demo cluster satisfies the
hypothesis, and the pass still refreshes the status. -/
theorem reconcile_paused_witness :
    pausedDemoCluster.spec.cluster_operation.reconciliation_paused = true ∧
    ReconcileEvent.statusPatched ∈
      (reconcile_hello pausedDemoCluster demoImage oracleOk false).1 :=
  ⟨rfl,
    (reconcile_paused_refreshes_status_only pausedDemoCluster demoImage oracleOk false
        rfl).2 Action.awaitChange rfl⟩

theorem adds_before_tail (evs tail : List ReconcileEvent)
    (hhead : ∀ e ∈ evs, e.isPrune = false)
    (htail : ∀ e ∈ tail, e.isAdd = false) :
    ∀ i j ei ej, (evs ++ tail).get? i = some ei → (evs ++ tail).get? j = some ej →
      ei.isAdd = true → ej.isPrune = true → i < j := by
  intro i j ei ej hi hj hadd hprune
  have hjlen : evs.length ≤ j := by
    by_contra hlt
    push_neg at hlt
    rw [List.get?_append hlt] at hj
    have hev := hhead ej (List.get?_mem hj)
    rw [hprune] at hev
    exact Bool.noConfusion hev
  have hilt : i < evs.length := by
    by_contra hge
    push_neg at hge
    rw [List.get?_append_right hge] at hi
    have hev := htail ei (List.get?_mem hi)
    rw [hadd] at hev
    exact Bool.noConfusion hev
  omega

/-- C5: pruning runs only after every apply of the pass, and an aborted
pass (any apply error) never reaches pruning. -/
theorem prune_only_after_applies (hello : HelloCluster) (img : ResolvedProductImage)
    (oracle : Oracle) (pf : Bool) :
    (∀ i j ei ej,
        ((reconcile_hello hello img oracle pf).1).get? i = some ei →
        ((reconcile_hello hello img oracle pf).1).get? j = some ej →
        ei.isAdd = true → ej.isPrune = true → i < j) ∧
    (∀ e, (reconcile_hello hello img oracle pf).2 = .error e → e.isApplyError = true →
        ∀ ev ∈ (reconcile_hello hello img oracle pf).1, ev.isPrune = false) := by
  have hbody := reconcile_body_no_prune hello img oracle
  cases hb : reconcile_body hello img oracle with
  | mk evs err =>
    rw [hb] at hbody
    dsimp only at hbody
    simp only [reconcile_hello, hb]
    cases err with
    | some e =>
      dsimp only
      constructor
      · intro i j ei ej hi hj hadd hprune
        exfalso
        have hev := hbody ej (List.get?_mem hj)
        rw [hprune] at hev
        exact Bool.noConfusion hev
      · intro e2 he2 happ ev hev
        exact hbody ev hev
    | none =>
      dsimp only
      split
      · split
        · constructor
          · apply adds_before_tail evs _ hbody
            intro e he
            simp at he
            subst he
            rfl
          · intro e2 he2 happ ev hev
            injection he2 with he3
            rw [← he3] at happ
            exact Bool.noConfusion happ
        · constructor
          · apply adds_before_tail evs _ hbody
            intro e he
            simp at he
            rcases he with he | he <;> subst he <;> rfl
          · intro e2 he2
            cases he2
      · constructor
        · apply adds_before_tail evs _ hbody
          intro e he
          simp at he
          subst he
          rfl
        · intro e2 he2
          cases he2

/-- Witness for C5: on the demo cluster the trace has an apply at index 2
and the prune call at index 31, in that order. -/
theorem prune_only_after_applies_witness :
    ((reconcile_hello demoCluster demoImage oracleOk false).1).get? 2 =
      some (.addCalled { kind := .serviceAccount, name := "demo-serviceaccount" }
        .default) ∧
    ((reconcile_hello demoCluster demoImage oracleOk false).1).get? 31 =
      some (.deleteOrphansCalled .default) ∧
    (2 : Nat) < 31 :=
  ⟨rfl, rfl,
    (prune_only_after_applies demoCluster demoImage oracleOk false).1 2 31
      (.addCalled { kind := .serviceAccount, name := "demo-serviceaccount" } .default)
      (.deleteOrphansCalled .default) rfl rfl rfl rfl⟩

/-- C6: a successful pass requests awaiting the next change event, and the
error policy always requeues after the fixed five seconds, independent of
the object and of the error. -/
theorem reconcile_outcomes :
    (∀ (hello : HelloCluster) (img : ResolvedProductImage) (oracle : Oracle) (pf : Bool)
        (a : Action), (reconcile_hello hello img oracle pf).2 = .ok a →
        a = .awaitChange) ∧
    (∀ (obj : HelloCluster) (e : ControllerError), error_policy obj e = .requeue 5) := by
  constructor
  · intro hello img oracle pf a h
    simp only [reconcile_hello] at h
    cases hb : reconcile_body hello img oracle with
    | mk evs err =>
      rw [hb] at h
      cases err with
      | some e => cases h
      | none =>
        dsimp only at h
        split at h
        · split at h
          · cases h
          · injection h with h1
            exact h1.symm
        · injection h with h1
          exact h1.symm
  · intro obj e
    rfl

/-- Witness for C6: the demo cluster reconciles successfully to the
await-change action, and the error policy requeues after five seconds. -/
theorem reconcile_outcomes_witness :
    (reconcile_hello demoCluster demoImage oracleOk false).2 =
      Except.ok Action.awaitChange ∧
    error_policy demoCluster ControllerError.noServerRole = Action.requeue 5 := by
  have h1 : (reconcile_hello demoCluster demoImage oracleOk false).2 =
      Except.ok Action.awaitChange := rfl
  exact ⟨(reconcile_outcomes.1 demoCluster demoImage oracleOk false Action.awaitChange
      h1) ▸ h1,
    reconcile_outcomes.2 demoCluster ControllerError.noServerRole⟩

/-! C7: administrator pod overrides are merged last. The strategic merge of
the store's deep-merge preserves keyed entries, so "whole-field overwrite"
fails for the structured fields; atomic leaves are later-wins. -/

/-- A keyed strategic merge maps keys to the computed keys followed by the
keys of the unmatched override entries: no computed entry is dropped. -/
theorem mergeKeyedList_map_key {α κ : Type _} [DecidableEq κ] (key : α → κ)
    (mergeItem : α → α → α) (hkey : ∀ s o, key (mergeItem s o) = key s)
    (self other : List α) :
    (mergeKeyedList key mergeItem self other).map key =
      self.map key ++
        (other.filter (fun o => !(self.any (fun s => decide (key s = key o))))).map key := by
  unfold mergeKeyedList
  rw [List.map_append]
  congr 1
  rw [List.map_map]
  apply List.map_congr_left
  intro s hs
  simp only [Function.comp]
  cases hfind : other.find? (fun o => decide (key o = key s)) with
  | none => rfl
  | some o => exact hkey s o

/-- C7 amended: the built workload template is the computed template with
the role-level pod overrides deep-merged over it and the role-group-level
pod overrides deep-merged last; the atomic service-account and
termination-grace fields are later-wins per field, while the containers
list is merged strategically by container name — every computed container
survives and unmatched override containers are appended. -/
theorem statefulset_pod_overrides_last (hello : HelloCluster)
    (img : ResolvedProductImage) (role_group_ref : RoleGroupRef)
    (rolegroup_config : RoleGroupValidatedConfig) (merged_config : HelloConfig)
    (sa_name : String) (r : RoleSpec) (rg : RoleGroup)
    (hr : hello.spec.servers = some r)
    (href : role_group_ref.role = "server")
    (hrg : r.role_groups.lookup role_group_ref.role_group = some rg) :
    (build_server_rolegroup_statefulset hello img .server role_group_ref rolegroup_config
        merged_config sa_name).toOption.map StatefulSetResource.template =
      some (((build_pod_template hello img role_group_ref rolegroup_config merged_config
          sa_name).merge_from r.config.pod_overrides).merge_from
        rg.config.pod_overrides) ∧
    (∀ t o : PodTemplateSpec,
        (t.merge_from o).service_account_name =
          mergeOpt o.service_account_name t.service_account_name ∧
        (t.merge_from o).termination_grace_period_seconds =
          mergeOpt o.termination_grace_period_seconds
            t.termination_grace_period_seconds) ∧
    (∀ (t o : PodTemplateSpec) (cs os : List ContainerSpec),
        t.containers = some cs → o.containers = some os →
        ((t.merge_from o).containers).map (fun l => l.map ContainerSpec.name) =
          some (cs.map ContainerSpec.name ++
            (os.filter (fun c =>
              !(cs.any (fun s => decide (s.name = c.name))))).map
              ContainerSpec.name)) := by
  refine ⟨?_, fun t o => ⟨rfl, rfl⟩, ?_⟩
  · simp only [build_server_rolegroup_statefulset, HelloCluster.role,
      HelloCluster.role_group, HelloRole.from_str, href, if_pos, hr, hrg]
    rfl
  · intro t o cs os hcs hos
    have hmerged : (t.merge_from o).containers =
        some (mergeKeyedList ContainerSpec.name ContainerSpec.merge_from cs os) := by
      simp only [PodTemplateSpec.merge_from, hcs, hos, mergeOptWith]
    rw [hmerged]
    exact congrArg some (mergeKeyedList_map_key ContainerSpec.name ContainerSpec.merge_from
      (fun s o2 => rfl) cs os)

/-- A concrete validated configuration used by the builder fixtures. -/
def demoMergedConfig : HelloConfig :=
  { resources :=
      { cpu := { min := some "100m", max := some "400m" }
        memory := { limit := some "256Mi" }
        storage :=
          { data := { capacity := some "256Mi", storage_class := none, selectors := none } } }
    logging :=
      { enable_vector_agent := false
        hello := { choice := none }
        vector := { choice := none } }
    affinity :=
      { pod_affinity := none, pod_anti_affinity := none, node_affinity := none
        node_selector := none }
    graceful_shutdown_timeout := some 120 }

def ovRolePodOverrides : PodTemplateSpec :=
  { PodTemplateSpec.empty with
      termination_grace_period_seconds := some 42
      service_account_name := some "role-sa" }

def ovGroupPodOverrides : PodTemplateSpec :=
  { PodTemplateSpec.empty with service_account_name := some "group-sa" }

def ovRoleGroup : RoleGroup :=
  { config := { config := emptyFragment, pod_overrides := ovGroupPodOverrides }
    replicas := some 2
    selector := none }

def ovRole : RoleSpec :=
  { config := { config := emptyFragment, pod_overrides := ovRolePodOverrides }
    role_config := { pod_disruption_budget := { enabled := false, max_unavailable := none } }
    role_groups := [("default", ovRoleGroup)] }

def ovCluster : HelloCluster :=
  { demoCluster with spec := { demoCluster.spec with servers := some ovRole } }

/-- An additional container supplied through a role-group pod override. -/
def extraContainer : ContainerSpec :=
  { name := "extra"
    image := some "custom-image"
    command := []
    args := []
    env := []
    volume_mounts := []
    container_ports := []
    resources := none
    readiness_probe := none
    liveness_probe := none }

def ovcGroupPodOverrides : PodTemplateSpec :=
  { PodTemplateSpec.empty with containers := some [extraContainer] }

def ovcRoleGroup : RoleGroup :=
  { config := { config := emptyFragment, pod_overrides := ovcGroupPodOverrides }
    replicas := some 1
    selector := none }

def ovcRole : RoleSpec :=
  { config := { config := emptyFragment, pod_overrides := PodTemplateSpec.empty }
    role_config := { pod_disruption_budget := { enabled := false, max_unavailable := none } }
    role_groups := [("default", ovcRoleGroup)] }

def ovcCluster : HelloCluster :=
  { demoCluster with spec := { demoCluster.spec with servers := some ovcRole } }

/-- C7 counterexample: a role-group pod override that sets the containers
field does not wholesale-replace the computed containers list — the built
workload keeps the computed primary container and appends the override
container, refuting "later wins, whole-field overwrite". -/
theorem pod_overrides_not_whole_field :
    (build_server_rolegroup_statefulset ovcCluster demoImage .server demoRefDefault .empty
        demoMergedConfig "computed-sa").toOption.map
      (fun s => s.template.containers.map (fun l => l.map ContainerSpec.name)) =
      some (some ["hello-world", "extra"]) ∧
    ¬ ((build_server_rolegroup_statefulset ovcCluster demoImage .server demoRefDefault
          .empty demoMergedConfig "computed-sa").toOption.map
        (fun s => s.template.containers.map (fun l => l.map ContainerSpec.name)) =
        some (some ["extra"])) :=
  ⟨rfl, by decide⟩

/-- Witness for C7 (amended): on a cluster with a role-level and a
role-group-level pod override, the built template is the twice-merged one;
the role-group override wins on the atomic field both levels set, the
role-level override survives on the field only it sets, and a merged-in
override containers list keeps the computed container and appends the new
one. -/
theorem statefulset_pod_overrides_last_witness :
    ovCluster.spec.servers = some ovRole ∧
    ovRole.role_groups.lookup "default" = some ovRoleGroup ∧
    (build_server_rolegroup_statefulset ovCluster demoImage .server demoRefDefault .empty
        demoMergedConfig "computed-sa").toOption.map StatefulSetResource.template =
      some (((build_pod_template ovCluster demoImage demoRefDefault .empty demoMergedConfig
          "computed-sa").merge_from ovRolePodOverrides).merge_from ovGroupPodOverrides) ∧
    (build_server_rolegroup_statefulset ovCluster demoImage .server demoRefDefault .empty
        demoMergedConfig "computed-sa").toOption.map
      (fun s => s.template.service_account_name) = some (some "group-sa") ∧
    (build_server_rolegroup_statefulset ovCluster demoImage .server demoRefDefault .empty
        demoMergedConfig "computed-sa").toOption.map
      (fun s => s.template.termination_grace_period_seconds) = some (some 42) ∧
    ((build_pod_template ovcCluster demoImage demoRefDefault .empty demoMergedConfig
        "computed-sa").merge_from ovcGroupPodOverrides).containers.map
      (fun l => l.map ContainerSpec.name) = some ["hello-world", "extra"] :=
  ⟨rfl, rfl,
    (statefulset_pod_overrides_last ovCluster demoImage demoRefDefault .empty
        demoMergedConfig "computed-sa" ovRole ovRoleGroup rfl rfl rfl).1,
    rfl, rfl,
    (statefulset_pod_overrides_last ovcCluster demoImage demoRefDefault .empty
        demoMergedConfig "computed-sa" ovcRole ovcRoleGroup rfl rfl rfl).2.2
      (build_pod_template ovcCluster demoImage demoRefDefault .empty demoMergedConfig
        "computed-sa")
      ovcGroupPodOverrides
      [build_hello_container demoImage .empty demoMergedConfig]
      [extraContainer] rfl rfl⟩

/-! C8: probe timing policy of the primary container. -/

/-- Decides the claimed comparison "the liveness probe tolerates strictly
fewer consecutive failures than the readiness probe" on the built
container: both probes must carry a failure threshold and the liveness one
must be strictly smaller. -/
def claimedStrictlyFewer (c : ContainerSpec) : Bool :=
  match c.liveness_probe, c.readiness_probe with
  | some lp, some rp =>
    match lp.failure_threshold, rp.failure_threshold with
    | some lt, some rt => decide (lt < rt)
    | _, _ => false
  | _, _ => false

/-- C8 counterexample: the built primary container carries no liveness
failure threshold at all (readiness carries 5), so the claimed
strict-threshold comparison fails on the built workload. -/
theorem liveness_threshold_unset :
    claimedStrictlyFewer (build_hello_container demoImage .empty demoMergedConfig)
      = false ∧
    (build_hello_container demoImage .empty demoMergedConfig).readiness_probe.map
      Probe.failure_threshold = some (some 5) ∧
    (build_hello_container demoImage .empty demoMergedConfig).liveness_probe.map
      Probe.failure_threshold = some none :=
  ⟨rfl, rfl, rfl⟩

/-- C8 amended: the primary container of every built workload carries a
readiness and a liveness probe on the http port, the readiness probe has a
shorter initial delay (10s vs 30s), both share the 10s period, readiness
tolerates 5 consecutive failures, and the liveness probe leaves its failure
threshold unset (the store default, 3, then applies, which is stricter than
5). -/
theorem hello_container_probe_policy (img : ResolvedProductImage)
    (rgconf : RoleGroupValidatedConfig) (mc : HelloConfig) :
    (build_hello_container img rgconf mc).readiness_probe =
      some { initial_delay_seconds := some 10, period_seconds := some 10,
             failure_threshold := some 5, tcp_socket_port := some HTTP_PORT_NAME } ∧
    (build_hello_container img rgconf mc).liveness_probe =
      some { initial_delay_seconds := some 30, period_seconds := some 10,
             failure_threshold := none, tcp_socket_port := some HTTP_PORT_NAME } ∧
    (10 : Nat) < 30 ∧
    (∀ (hello : HelloCluster) (ref : RoleGroupRef) (sa : String),
        (build_pod_template hello img ref rgconf mc sa).containers =
          some (build_hello_container img rgconf mc ::
            (if mc.logging.enable_vector_agent then [vector_container img] else []))) :=
  ⟨rfl, rfl, by omega, fun hello ref sa => rfl⟩

/-! C9: listener-class exposure of the cluster-level service. -/

/-- C9: the cluster-level service is typed by the listener class, and the
three tiers map to the three distinct mechanisms ClusterIP, NodePort and
LoadBalancer. -/
theorem role_service_exposure (hello : HelloCluster) (img : ResolvedProductImage)
    (n : String) (hname : hello.metadata.name = some n) :
    (build_server_role_service hello img).toOption.map ServiceResource.service_type =
      some (some hello.spec.cluster_config.listener_class.k8s_service_type) ∧
    CurrentlySupportedListenerClasses.k8s_service_type .clusterInternal = "ClusterIP" ∧
    CurrentlySupportedListenerClasses.k8s_service_type .externalUnstable = "NodePort" ∧
    CurrentlySupportedListenerClasses.k8s_service_type .externalStable = "LoadBalancer" ∧
    (∀ a b : CurrentlySupportedListenerClasses,
        a.k8s_service_type = b.k8s_service_type → a = b) := by
  refine ⟨?_, rfl, rfl, rfl, ?_⟩
  · simp only [build_server_role_service, HelloCluster.server_role_service_name, hname]
    rfl
  · intro a b hab
    cases a <;> cases b <;> first
      | rfl
      | exact absurd hab (by decide)

/-- Witness for C9: the demo cluster has a name, and its cluster-level
service is a ClusterIP service (its listener class is cluster-internal). -/
theorem role_service_exposure_witness :
    demoCluster.metadata.name = some "demo" ∧
    (build_server_role_service demoCluster demoImage).toOption.map
      ServiceResource.service_type = some (some "ClusterIP") :=
  ⟨rfl, (role_service_exposure demoCluster demoImage "demo" rfl).1⟩

/-! C10: pod disruption budgets. -/

/-- C10: a disabled pod-disruption-budget config makes `add_pdbs` succeed
without touching the cluster resource set; when enabled with
`max_unavailable` unset, the budget is built with `max_unavailable` 1 for
the server role. -/
theorem add_pdbs_spec (pdbConf : PdbConfig) (hello : HelloCluster) (role : HelloRole)
    (oracle : Oracle) (crs : List PodDisruptionBudgetSpec) :
    (pdbConf.enabled = false → add_pdbs pdbConf hello role oracle crs = .ok crs) ∧
    (pdbConf.enabled = true → pdbConf.max_unavailable = none →
      oracle (ResourceId.mk .podDisruptionBudget
        (hello.name_any ++ "-" ++ role.roleName)) = false →
      add_pdbs pdbConf hello role oracle crs =
        .ok (crs ++ [PodDisruptionBudgetSpec.mk
          (hello.name_any ++ "-" ++ role.roleName) role.roleName 1])) := by
  constructor
  · intro h
    simp [add_pdbs, h]
  · intro hen hmax hor
    cases role
    simp [add_pdbs, hen, hmax, hor, max_unavailable_servers]

/-- Witness for C10: a disabled budget leaves the resource set unchanged on
the demo cluster; an enabled budget with no explicit `max_unavailable`
adds the server budget with `max_unavailable` 1. -/
theorem add_pdbs_spec_witness :
    add_pdbs { enabled := false, max_unavailable := none } demoCluster .server oracleOk []
      = .ok [] ∧
    add_pdbs { enabled := true, max_unavailable := none } demoCluster .server oracleOk []
      = .ok [{ name := "demo-server", role := "server", max_unavailable := 1 }] :=
  ⟨(add_pdbs_spec { enabled := false, max_unavailable := none } demoCluster .server
      oracleOk []).1 rfl,
    (add_pdbs_spec { enabled := true, max_unavailable := none } demoCluster .server
      oracleOk []).2 rfl rfl rfl⟩

end HelloOperator
